import Mathlib

/-!
Verification development for the HL7 data-quality engine in
`src/hl7DataQualityService.js`.  The engine runs a structural gate, parses the
message through an external parser, runs a fixed battery of ten check
functions, and aggregates their issues and score penalties into a report.

The external collaborators (`validateHL7Message` and `parseHL7Message` from the
`hl7-parser` package) are not part of this repository; `analyzeDataQuality` is
therefore embedded parametrically over them, and concrete models of them
(faithful to the spec's contract for the collaborators) are provided separately
for evaluating the engine on the sample message.
-/

set_option maxRecDepth 20000

namespace HL7DQ

/-- Splits a character list at every occurrence of `sep` (auxiliary, with an
accumulator for the current chunk). -/
def splitCharAux (sep : Char) : List Char → List Char → List (List Char)
  | [], acc => [acc.reverse]
  | c :: cs, acc =>
      if c = sep then acc.reverse :: splitCharAux sep cs []
      else splitCharAux sep cs (c :: acc)

/-- Splits a character list at every occurrence of `sep`. -/
def splitChar (sep : Char) (cs : List Char) : List (List Char) :=
  splitCharAux sep cs []

/-- JavaScript `String.prototype.includes`: `sub` occurs as a contiguous
substring of `s`. -/
def strIncludes (s sub : String) : Bool :=
  s.data.tails.any (fun t => sub.data.isPrefixOf t)

/-- Test for the HL7 date pattern used by the engine for PID-7 and by the
date-format sweep, the regex `^\d{8}(\d{6})?(\d{1,4})?([+-]\d{4})?$`
(both `dobRegex` and `dateRegex` in the source are this same pattern).
The digit groups are contiguous, so a string matches exactly when it is a
run of digits whose length is 8, 9-12 or 14-18, optionally followed by a
sign and four digits. -/
def hl7DateTest (s : String) : Bool :=
  let cs := s.data
  let ds := cs.takeWhile Char.isDigit
  let rest := cs.drop ds.length
  ([8, 9, 10, 11, 12, 14, 15, 16, 17, 18].contains ds.length) &&
    (rest.isEmpty ||
      (rest.length == 5 && (rest.headD ' ' == '+' || rest.headD ' ' == '-') &&
        (rest.drop 1).all Char.isDigit))

/-- Test for the timezone suffix `([+-]\d{4})?$` of the MSH-7 pattern. -/
def tzSuffixTest : List Char → Bool
  | [] => true
  | c :: rest => (c == '+' || c == '-') && rest.length == 4 && rest.all Char.isDigit

/-- Test for the MSH-7 timestamp pattern, the regex
`^\d{14}(\.\d{1,4})?([+-]\d{4})?$`. -/
def mshDateTimeTest (s : String) : Bool :=
  let cs := s.data
  let ds := cs.takeWhile Char.isDigit
  let rest := cs.drop ds.length
  ds.length == 14 &&
    (match rest with
     | '.' :: fracRest =>
         let fs := fracRest.takeWhile Char.isDigit
         decide (1 ≤ fs.length) && decide (fs.length ≤ 4) &&
           tzSuffixTest (fracRest.drop fs.length)
     | other => tzSuffixTest other)

/-- Test for the SSN pattern `^\d{3}-?\d{2}-?\d{4}$`: nine digits with an
optional dash after the third digit and an optional dash before the last
four digits. -/
def ssnTest (s : String) : Bool :=
  let cs := s.data
  (cs.length == 9 && cs.all Char.isDigit) ||
  (cs.length == 10 && (cs.take 3).all Char.isDigit && cs.getD 3 ' ' == '-' &&
    (cs.drop 4).all Char.isDigit) ||
  (cs.length == 10 && (cs.take 5).all Char.isDigit && cs.getD 5 ' ' == '-' &&
    (cs.drop 6).all Char.isDigit) ||
  (cs.length == 11 && (cs.take 3).all Char.isDigit && cs.getD 3 ' ' == '-' &&
    ((cs.drop 4).take 2).all Char.isDigit && cs.getD 6 ' ' == '-' &&
    (cs.drop 7).all Char.isDigit)

/-- Character class of the phone regex `[\d\-()\s]+`. -/
def phoneChar (c : Char) : Bool :=
  c.isDigit || c == '-' || c == '(' || c == ')' || c.isWhitespace

/-- Unanchored test of the phone regex: the value contains at least one
character of the class. -/
def phoneTest (s : String) : Bool :=
  s.data.any phoneChar

/-- Numeric value of a digit string (most significant first). -/
def digitsToNat (cs : List Char) : Nat :=
  cs.foldl (fun acc c => acc * 10 + (c.toNat - 48)) 0

/-- Gregorian leap-year rule, as used by the JavaScript `Date` object. -/
def isLeapYear (y : Nat) : Bool :=
  y % 4 == 0 && (y % 100 != 0 || y % 400 == 0)

/-- Number of days in a month, as validated by ISO date parsing. -/
def daysInMonth (y m : Nat) : Nat :=
  if m == 4 || m == 6 || m == 9 || m == 11 then 30
  else if m == 2 then (if isLeapYear y then 29 else 28)
  else 31

/-- Calendar key of a date field as compared by the business-rules check:
the source takes the first eight characters, rewrites `YYYYMMDD` to
`YYYY-MM-DD` and builds a `Date`.  A valid value yields a key ordered like
the calendar date; a value whose first eight characters are not exactly
eight digits forming a real calendar date yields an invalid `Date` (`NaN`),
for which every comparison is false - modelled as `none`. -/
def jsDateKey (s : String) : Option Nat :=
  let t := s.data.take 8
  if t.length == 8 && t.all Char.isDigit then
    let y := digitsToNat (t.take 4)
    let m := digitsToNat ((t.drop 4).take 2)
    let d := digitsToNat (t.drop 6)
    if 1 ≤ m ∧ m ≤ 12 ∧ 1 ≤ d ∧ d ≤ daysInMonth y m then
      some (y * 10000 + m * 100 + d)
    else none
  else none

/- Quality check categories, mirroring the exported `QUALITY_CATEGORIES`
constant map. -/
namespace QUALITY_CATEGORIES

def COMPLETENESS : String := "Completeness"

def ACCURACY : String := "Accuracy"

def CONSISTENCY : String := "Consistency"

def COMPLIANCE : String := "Compliance"

def FORMATTING : String := "Formatting"

def BUSINESS_RULES : String := "Business Rules"

end QUALITY_CATEGORIES

/- Severity levels, mirroring the exported `SEVERITY` constant map. -/
namespace SEVERITY

def CRITICAL : String := "Critical"

def HIGH : String := "High"

def MEDIUM : String := "Medium"

def LOW : String := "Low"

def INFO : String := "Info"

end SEVERITY

/-- One quality issue, with the six fields every issue object in the source
carries. -/
structure Issue where
  category : String
  severity : String
  field : String
  issue : String
  details : String
  recommendation : String
deriving DecidableEq, Repr

/-- Result shape returned by every check function.  `recommendations` is
`none` for the checks that omit the key (it is `undefined` in JavaScript and
skipped by the aggregator) and `some` for the checks that return the array. -/
structure CheckResult where
  issues : List Issue
  recommendations : Option (List String)
  scorePenalty : Nat
deriving DecidableEq, Repr

/-- One segment of a parsed message: a type tag plus positionally keyed
field values.  A field that is absent or empty is the empty string (the
source treats `undefined` and `''` identically in every check). -/
structure Segment where
  segmentType : String
  fields : Nat → String

/-- The parsed-message shape consumed by the checks (produced by the
external parser). -/
structure ParsedMessage where
  messageType : String
  totalSegments : Nat
  segments : List Segment

/-- Result shape of the external structural validator. -/
structure Validation where
  isValid : Bool
  errors : Option (List String)

/-- The quality report returned by `analyzeDataQuality`.  `messageType` and
`totalSegments` are only present on the completed-analysis path; the
`analysisDate` wall-clock timestamp is outside the model. -/
structure Report where
  overallScore : Int
  issues : List Issue
  recommendations : List String
  isValid : Bool
  messageType : Option String
  totalSegments : Option Nat
deriving DecidableEq, Repr

/-- Issue emitted by the structural gate. -/
def gateIssue (validation : Validation) : Issue :=
  { category := QUALITY_CATEGORIES.FORMATTING
    severity := SEVERITY.CRITICAL
    field := "Message Structure"
    issue := "Invalid HL7 message format"
    details :=
      match validation.errors with
      | none => "Message does not conform to HL7 standards"
      | some errs =>
          let joined := String.intercalate "; " errs
          if joined = "" then "Message does not conform to HL7 standards" else joined
    recommendation := "Ensure message starts with MSH segment and contains proper delimiters" }

/-- Issue emitted by the outer failure handler when parsing or checking
faults. -/
def parseFailureIssue (errMsg : String) : Issue :=
  { category := QUALITY_CATEGORIES.FORMATTING
    severity := SEVERITY.CRITICAL
    field := "Message Parsing"
    issue := "Failed to parse message"
    details := errMsg
    recommendation := "Review message format and ensure it follows HL7 v2.x standards" }

/-- Issue for a message without an MSH segment. -/
def mshMissingSegmentIssue : Issue :=
  { category := QUALITY_CATEGORIES.COMPLETENESS
    severity := SEVERITY.CRITICAL
    field := "MSH"
    issue := "Missing MSH segment"
    details := "All HL7 messages must start with an MSH segment"
    recommendation := "Add MSH segment as the first segment" }

/-- Issue for a missing required MSH field. -/
def mshMissingFieldIssue (n : Nat) (name : String) : Issue :=
  { category := QUALITY_CATEGORIES.COMPLETENESS
    severity := SEVERITY.HIGH
    field := "MSH-" ++ toString n
    issue := "Missing " ++ name
    details := name ++ " is required in MSH segment"
    recommendation := "Populate MSH-" ++ toString n ++ " with appropriate value" }

/-- Issue for an MSH-7 timestamp that fails the format pattern. -/
def mshTimestampFormatIssue : Issue :=
  { category := QUALITY_CATEGORIES.FORMATTING
    severity := SEVERITY.MEDIUM
    field := "MSH-7"
    issue := "Invalid Date/Time format"
    details := "Date/Time should be in format YYYYMMDDHHMMSS[.SSSS][+/-ZZZZ]"
    recommendation := "Format date/time as YYYYMMDDHHMMSS (e.g., 20240101120000)" }

/-- Issue for an absent MSH-7 timestamp. -/
def mshTimestampMissingIssue : Issue :=
  { category := QUALITY_CATEGORIES.COMPLETENESS
    severity := SEVERITY.HIGH
    field := "MSH-7"
    issue := "Missing Date/Time of Message"
    details := "Message timestamp is required"
    recommendation := "Add Date/Time of Message in MSH-7" }

/-- Issue for an ADT message without a PID segment. -/
def pidMissingSegIssue : Issue :=
  { category := QUALITY_CATEGORIES.COMPLETENESS
    severity := SEVERITY.CRITICAL
    field := "PID"
    issue := "Missing PID segment"
    details := "ADT messages require a PID (Patient Identification) segment"
    recommendation := "Add PID segment with patient identification information" }

/-- Issue for an ADT message without a PV1 segment. -/
def pv1MissingSegIssue : Issue :=
  { category := QUALITY_CATEGORIES.COMPLETENESS
    severity := SEVERITY.HIGH
    field := "PV1"
    issue := "Missing PV1 segment"
    details := "ADT messages typically require a PV1 (Patient Visit) segment"
    recommendation := "Add PV1 segment with patient visit information" }

/-- Issue for a missing patient name. -/
def pidNameIssue : Issue :=
  { category := QUALITY_CATEGORIES.COMPLETENESS
    severity := SEVERITY.HIGH
    field := "PID-5"
    issue := "Missing Patient Name"
    details := "Patient name is typically required for patient identification"
    recommendation := "Add patient name in PID-5 (format: Last^First^Middle^Suffix)" }

/-- Issue for a missing patient identifier. -/
def pidIdentifierIssue : Issue :=
  { category := QUALITY_CATEGORIES.COMPLETENESS
    severity := SEVERITY.HIGH
    field := "PID-3"
    issue := "Missing Patient Identifier"
    details := "Patient identifier is required for proper patient matching"
    recommendation := "Add patient identifier list in PID-3" }

/-- Issue for a missing date of birth. -/
def pidDobMissingIssue : Issue :=
  { category := QUALITY_CATEGORIES.COMPLETENESS
    severity := SEVERITY.MEDIUM
    field := "PID-7"
    issue := "Missing Date of Birth"
    details := "Date of birth is important for patient identification and age calculation"
    recommendation := "Add date of birth in PID-7 (format: YYYYMMDD)" }

/-- Issue for a date of birth that fails the format pattern. -/
def pidDobFormatIssue : Issue :=
  { category := QUALITY_CATEGORIES.FORMATTING
    severity := SEVERITY.MEDIUM
    field := "PID-7"
    issue := "Invalid Date of Birth format"
    details := "Date of birth should be in format YYYYMMDD"
    recommendation := "Format date of birth as YYYYMMDD (e.g., 19800115)" }

/-- Issue for a missing administrative sex. -/
def pidSexMissingIssue : Issue :=
  { category := QUALITY_CATEGORIES.COMPLETENESS
    severity := SEVERITY.LOW
    field := "PID-8"
    issue := "Missing Administrative Sex"
    details := "Administrative sex is useful for demographic reporting"
    recommendation := "Add administrative sex in PID-8 (M, F, O, U, or A)" }

/-- Issue for an administrative sex code outside the valid set. -/
def pidSexInvalidIssue (v : String) : Issue :=
  { category := QUALITY_CATEGORIES.ACCURACY
    severity := SEVERITY.MEDIUM
    field := "PID-8"
    issue := "Invalid Administrative Sex value"
    details := "Value \"" ++ v ++ "\" is not a valid administrative sex code"
    recommendation := "Use valid codes: M (Male), F (Female), O (Other), U (Unknown), A (Ambiguous)" }

/-- Issue from the date-format sweep for one named date field. -/
def dateFormatIssue (seg : String) (n : Nat) (name : String) (value : String) : Issue :=
  { category := QUALITY_CATEGORIES.FORMATTING
    severity := SEVERITY.MEDIUM
    field := seg ++ "-" ++ toString n
    issue := "Invalid " ++ name ++ " format"
    details := "Date value \"" ++ value ++ "\" does not match HL7 date format"
    recommendation := "Format dates as YYYYMMDD or YYYYMMDDHHMMSS" }

/-- Issue for an SSN that fails the format pattern. -/
def ssnIssue (v : String) : Issue :=
  { category := QUALITY_CATEGORIES.FORMATTING
    severity := SEVERITY.MEDIUM
    field := "PID-19"
    issue := "Invalid SSN format"
    details := "SSN \"" ++ v ++ "\" does not match expected format"
    recommendation := "Format SSN as XXX-XX-XXXX or XXXXXXXXX" }

/-- Issue for an address value without component separators. -/
def addressIssue : Issue :=
  { category := QUALITY_CATEGORIES.FORMATTING
    severity := SEVERITY.LOW
    field := "PID-11"
    issue := "Address may be missing components"
    details := "HL7 addresses should have components separated by ^ (Street^City^State^Zip^Country)"
    recommendation := "Format address with components: Street^City^State^Zip^Country" }

/-- Issue for a phone value that fails the permissive pattern. -/
def phoneIssue (n : Nat) (name : String) (v : String) : Issue :=
  { category := QUALITY_CATEGORIES.FORMATTING
    severity := SEVERITY.LOW
    field := "PID-" ++ toString n
    issue := "Invalid " ++ name ++ " format"
    details := "Phone number \"" ++ v ++ "\" may not be properly formatted"
    recommendation := "Format phone as [NNN][(999)]999-9999[X99999]" }

/-- Issue for a patient class code outside the valid set. -/
def patientClassIssue (v : String) : Issue :=
  { category := QUALITY_CATEGORIES.CONSISTENCY
    severity := SEVERITY.MEDIUM
    field := "PV1-2"
    issue := "Invalid Patient Class"
    details := "Patient class \"" ++ v ++ "\" is not a valid code"
    recommendation := "Use valid codes: I (Inpatient), O (Outpatient), E (Emergency), P (Preadmit), R (Recurring), B (Obstetrics), N (Newborn), U (Unknown)" }

/-- Issue for a discharge date preceding the admission date. -/
def dischargeBeforeAdmissionIssue : Issue :=
  { category := QUALITY_CATEGORIES.BUSINESS_RULES
    severity := SEVERITY.HIGH
    field := "PV1-44/45"
    issue := "Discharge date before admit date"
    details := "Discharge date should not be earlier than admit date"
    recommendation := "Verify and correct admit and discharge dates" }

/-- Issue for a death date preceding the birth date. -/
def deathBeforeBirthIssue : Issue :=
  { category := QUALITY_CATEGORIES.BUSINESS_RULES
    severity := SEVERITY.HIGH
    field := "PID-7/29"
    issue := "Death date before birth date"
    details := "Death date should not be earlier than birth date"
    recommendation := "Verify and correct birth and death dates" }

/-- Issue for a version id outside the whitelist. -/
def versionIssue (v : String) : Issue :=
  { category := QUALITY_CATEGORIES.COMPLIANCE
    severity := SEVERITY.MEDIUM
    field := "MSH-12"
    issue := "Unusual HL7 version"
    details := "Version \"" ++ v ++ "\" is not a standard HL7 v2.x version"
    recommendation := "Verify version ID matches actual message structure (common versions: 2.3, 2.4, 2.5, 2.8)" }

/-- The required MSH fields checked by `checkMSHCompleteness`, in source
order with their display names. -/
def mshRequiredFields : List (Nat × String) :=
  [(3, "Sending Application"), (4, "Sending Facility"), (5, "Receiving Application"),
   (6, "Receiving Facility"), (9, "Message Type"), (10, "Message Control ID"),
   (12, "Version ID")]

/-- Check of MSH segment completeness (`checkMSHCompleteness`). -/
def checkMSHCompleteness (parsed : ParsedMessage) : CheckResult :=
  match parsed.segments.find? (fun s => s.segmentType == "MSH") with
  | none => { issues := [mshMissingSegmentIssue], recommendations := none, scorePenalty := 20 }
  | some mshSegment =>
      let msh := mshSegment.fields
      let missing := mshRequiredFields.filter (fun fn => msh fn.1 == "" || msh fn.1 == "Unknown")
      let dtPart : List Issue × Nat :=
        if msh 7 != "" && msh 7 != "Unknown" then
          if mshDateTimeTest (msh 7) then ([], 0) else ([mshTimestampFormatIssue], 1)
        else ([mshTimestampMissingIssue], 2)
      { issues := missing.map (fun fn => mshMissingFieldIssue fn.1 fn.2) ++ dtPart.1
        recommendations := some []
        scorePenalty := 2 * missing.length + dtPart.2 }

/-- Check for message-type-specific required segments
(`checkRequiredSegments`). -/
def checkRequiredSegments (parsed : ParsedMessage) : CheckResult :=
  let messageType := parsed.messageType
  let segmentTypes := parsed.segments.map (fun s => s.segmentType)
  if strIncludes messageType "ADT" then
    let pidPart : List Issue × Nat :=
      if segmentTypes.contains "PID" then ([], 0) else ([pidMissingSegIssue], 15)
    let pv1Part : List Issue × Nat :=
      if segmentTypes.contains "PV1" then ([], 0) else ([pv1MissingSegIssue], 10)
    { issues := pidPart.1 ++ pv1Part.1
      recommendations := none
      scorePenalty := pidPart.2 + pv1Part.2 }
  else { issues := [], recommendations := none, scorePenalty := 0 }

/-- Patient-name clause of the PID completeness check. -/
def pidNamePart (pid : Nat → String) : List Issue × Nat :=
  if pid 5 == "" then ([pidNameIssue], 5) else ([], 0)

/-- Patient-identifier clause of the PID completeness check. -/
def pidIdentifierPart (pid : Nat → String) : List Issue × Nat :=
  if pid 3 == "" then ([pidIdentifierIssue], 5) else ([], 0)

/-- Date-of-birth clause of the PID completeness check. -/
def pidDobPart (pid : Nat → String) : List Issue × Nat :=
  if pid 7 == "" then ([pidDobMissingIssue], 3)
  else if hl7DateTest (pid 7) then ([], 0)
  else ([pidDobFormatIssue], 2)

/-- Administrative-sex clause of the PID completeness check. -/
def pidSexPart (pid : Nat → String) : List Issue × Nat :=
  if pid 8 == "" then ([pidSexMissingIssue], 1)
  else if ["M", "F", "O", "U", "A"].contains (pid 8) then ([], 0)
  else ([pidSexInvalidIssue (pid 8)], 2)

/-- Check of PID segment completeness (`checkPIDCompleteness`). -/
def checkPIDCompleteness (parsed : ParsedMessage) : CheckResult :=
  match parsed.segments.find? (fun s => s.segmentType == "PID") with
  | none => { issues := [], recommendations := some [], scorePenalty := 0 }
  | some pidSegment =>
      let pid := pidSegment.fields
      { issues :=
          (pidNamePart pid).1 ++ (pidIdentifierPart pid).1 ++ (pidDobPart pid).1 ++
            (pidSexPart pid).1
        recommendations := some []
        scorePenalty :=
          (pidNamePart pid).2 + (pidIdentifierPart pid).2 + (pidDobPart pid).2 +
            (pidSexPart pid).2 }

/-- The six named date fields swept by `checkDateFormats`, in source order. -/
def dateFieldTable : List (String × Nat × String) :=
  [("MSH", 7, "Date/Time of Message"), ("PID", 7, "Date of Birth"),
   ("PID", 29, "Patient Death Date"), ("PV1", 44, "Admit Date/Time"),
   ("PV1", 45, "Discharge Date/Time"), ("EVN", 2, "Recorded Date/Time")]

/-- Issue produced by the date-format sweep for one table entry, when the
segment exists, the field is populated and the value fails the pattern. -/
def dateFieldIssue (entry : String × Nat × String) (parsed : ParsedMessage) : Option Issue :=
  match parsed.segments.find? (fun s => s.segmentType == entry.1) with
  | none => none
  | some seg =>
      let value := seg.fields entry.2.1
      if value != "" && !(hl7DateTest value) then
        some (dateFormatIssue entry.1 entry.2.1 entry.2.2 value)
      else none

/-- Check of date formats throughout the message (`checkDateFormats`). -/
def checkDateFormats (parsed : ParsedMessage) : CheckResult :=
  let hits := dateFieldTable.filterMap (fun e => dateFieldIssue e parsed)
  { issues := hits, recommendations := none, scorePenalty := hits.length }

/-- Check of identifier formats (`checkIdentifierFormats`). -/
def checkIdentifierFormats (parsed : ParsedMessage) : CheckResult :=
  match parsed.segments.find? (fun s => s.segmentType == "PID") with
  | none => { issues := [], recommendations := none, scorePenalty := 0 }
  | some pidSegment =>
      let ssn := pidSegment.fields 19
      if ssn != "" && !(ssnTest ssn) then
        { issues := [ssnIssue ssn], recommendations := none, scorePenalty := 2 }
      else { issues := [], recommendations := none, scorePenalty := 0 }

/-- Check of address formats (`checkAddressFormats`). -/
def checkAddressFormats (parsed : ParsedMessage) : CheckResult :=
  match parsed.segments.find? (fun s => s.segmentType == "PID") with
  | none => { issues := [], recommendations := none, scorePenalty := 0 }
  | some pidSegment =>
      let address := pidSegment.fields 11
      if address != "" && !(strIncludes address "^") then
        { issues := [addressIssue], recommendations := none, scorePenalty := 1 }
      else { issues := [], recommendations := none, scorePenalty := 0 }

/-- The two phone fields swept by `checkPhoneFormats`. -/
def phoneFieldTable : List (Nat × String) :=
  [(13, "Phone Number - Home"), (14, "Phone Number - Business")]

/-- Check of phone number formats (`checkPhoneFormats`). -/
def checkPhoneFormats (parsed : ParsedMessage) : CheckResult :=
  match parsed.segments.find? (fun s => s.segmentType == "PID") with
  | none => { issues := [], recommendations := none, scorePenalty := 0 }
  | some pidSegment =>
      let hits := phoneFieldTable.filterMap (fun e =>
        let phone := pidSegment.fields e.1
        if phone != "" && !(phoneTest phone) then some (phoneIssue e.1 e.2 phone) else none)
      { issues := hits, recommendations := none, scorePenalty := hits.length }

/-- Check of data consistency across segments (`checkDataConsistency`). -/
def checkDataConsistency (parsed : ParsedMessage) : CheckResult :=
  match parsed.segments.find? (fun s => s.segmentType == "PID"),
        parsed.segments.find? (fun s => s.segmentType == "PV1") with
  | some _, some pv1Segment =>
      let patientClass := pv1Segment.fields 2
      if patientClass != "" &&
          !(["I", "O", "E", "P", "R", "B", "N", "U"].contains patientClass) then
        { issues := [patientClassIssue patientClass], recommendations := none, scorePenalty := 2 }
      else { issues := [], recommendations := none, scorePenalty := 0 }
  | _, _ => { issues := [], recommendations := none, scorePenalty := 0 }

/-- Admit/discharge clause of the business-rules check. -/
def admissionDischargePart (pv1 : Option Segment) : List Issue × Nat :=
  match pv1 with
  | none => ([], 0)
  | some seg =>
      let admissionDate := seg.fields 44
      let dischargeDate := seg.fields 45
      if admissionDate != "" && dischargeDate != "" then
        match jsDateKey admissionDate, jsDateKey dischargeDate with
        | some admission, some discharge =>
            if discharge < admission then ([dischargeBeforeAdmissionIssue], 5) else ([], 0)
        | _, _ => ([], 0)
      else ([], 0)

/-- Birth/death clause of the business-rules check. -/
def birthDeathPart (pid : Option Segment) : List Issue × Nat :=
  match pid with
  | none => ([], 0)
  | some seg =>
      let birthDate := seg.fields 7
      let deathDate := seg.fields 29
      if birthDate != "" && deathDate != "" then
        match jsDateKey birthDate, jsDateKey deathDate with
        | some birth, some death =>
            if death < birth then ([deathBeforeBirthIssue], 5) else ([], 0)
        | _, _ => ([], 0)
      else ([], 0)

/-- Check of business rules (`checkBusinessRules`). -/
def checkBusinessRules (parsed : ParsedMessage) : CheckResult :=
  let a := admissionDischargePart (parsed.segments.find? (fun s => s.segmentType == "PV1"))
  let b := birthDeathPart (parsed.segments.find? (fun s => s.segmentType == "PID"))
  { issues := a.1 ++ b.1, recommendations := none, scorePenalty := a.2 + b.2 }

/-- Standard HL7 v2.x version whitelist. -/
def validVersions : List String :=
  ["2.1", "2.2", "2.3", "2.3.1", "2.4", "2.5", "2.5.1", "2.6", "2.7", "2.8",
   "2.8.1", "2.8.2"]

/-- Check of version compliance (`checkVersionCompliance`). -/
def checkVersionCompliance (parsed : ParsedMessage) : CheckResult :=
  match parsed.segments.find? (fun s => s.segmentType == "MSH") with
  | none => { issues := [], recommendations := none, scorePenalty := 0 }
  | some mshSegment =>
      let version := mshSegment.fields 12
      if version != "" && !(validVersions.contains version) then
        { issues := [versionIssue version], recommendations := none, scorePenalty := 2 }
      else { issues := [], recommendations := none, scorePenalty := 0 }

/-- The fixed check battery, in source order. -/
def runChecks (parsed : ParsedMessage) : List CheckResult :=
  [checkMSHCompleteness parsed, checkRequiredSegments parsed, checkPIDCompleteness parsed,
   checkDateFormats parsed, checkIdentifierFormats parsed, checkAddressFormats parsed,
   checkPhoneFormats parsed, checkDataConsistency parsed, checkBusinessRules parsed,
   checkVersionCompliance parsed]

/-- Sum of the score penalties of the whole battery. -/
def totalPenalty (parsed : ParsedMessage) : Nat :=
  ((runChecks parsed).map CheckResult.scorePenalty).sum

/-- Deduplication with first-seen order, the semantics of building a
JavaScript `Set` from an array and spreading it back (auxiliary, carrying
the set of strings already seen). -/
def dedupFirstAux : List String → List String → List String
  | [], _ => []
  | x :: xs, seen =>
      if x ∈ seen then dedupFirstAux xs seen else x :: dedupFirstAux xs (x :: seen)

/-- Deduplication with first-seen order. -/
def dedupFirst (l : List String) : List String :=
  dedupFirstAux l []

/-- One step of the aggregation loop over check results: concatenate issues,
concatenate the optional recommendations arrays, and subtract the penalty
when it is nonzero (zero is falsy in the source's guard). -/
def aggStep (acc : List Issue × List String × Int) (checkResult : CheckResult) :
    List Issue × List String × Int :=
  (acc.1 ++ checkResult.issues,
   acc.2.1 ++ (match checkResult.recommendations with | some recs => recs | none => []),
   if checkResult.scorePenalty != 0 then acc.2.2 - (checkResult.scorePenalty : Int)
   else acc.2.2)

/-- Aggregation of the check results, starting from the initial score of
100 and empty issue and recommendation lists. -/
def aggregate (checks : List CheckResult) : List Issue × List String × Int :=
  checks.foldl aggStep ([], [], 100)

/-- The report assembled on the completed-analysis path. -/
def successReport (parsed : ParsedMessage) : Report :=
  let agg := aggregate (runChecks parsed)
  { overallScore := max 0 (min 100 agg.2.2)
    issues := agg.1
    recommendations := dedupFirst agg.2.1
    isValid := true
    messageType := some parsed.messageType
    totalSegments := some parsed.totalSegments }

/-- The report returned by the structural gate's short circuit: the fixed
penalty of 30 is applied to the initial score of 100 and clamped at 0. -/
def gateFailureReport (validation : Validation) : Report :=
  { overallScore := max 0 (100 - 30)
    issues := [gateIssue validation]
    recommendations := []
    isValid := false
    messageType := none
    totalSegments := none }

/-- The report returned by the outer failure handler. -/
def parseFailureReport (errMsg : String) : Report :=
  { overallScore := 0
    issues := [parseFailureIssue errMsg]
    recommendations := ["Fix parsing errors before proceeding with quality analysis"]
    isValid := false
    messageType := none
    totalSegments := none }

/-- The full pipeline (`analyzeDataQuality`), parameterized over the two
external collaborators.  A fault raised inside the guarded region (by the
parser, or by a check applied to a malformed parsed shape) is modelled as
the parser returning `Except.error`; the source catches it before any
check finding is recorded, so the handler sees an empty issue list either
way. -/
def analyzeDataQuality (validateHL7Message : String → Validation)
    (parseHL7Message : String → Except String ParsedMessage)
    (hl7Message : String) : Report :=
  let validation := validateHL7Message hl7Message
  if validation.isValid then
    match parseHL7Message hl7Message with
    | Except.ok parsed => successReport parsed
    | Except.error e => parseFailureReport e
  else gateFailureReport validation

/-- Segment built from the pipe-separated tokens of one line.  Modelled from
the spec: the external parser keys fields positionally; for the header
segment the tag plus separator definition occupy the first two positions,
so field n is token n-1, while for every other segment field n is token n.
Absent fields read as the empty string. -/
def segOfTokens (toks : List String) : Segment :=
  { segmentType := toks.headD ""
    fields := fun n =>
      if toks.headD "" == "MSH" then toks.getD (n - 1) "" else toks.getD n "" }

/-- Modelled from the spec: the external `parseHL7Message` collaborator of
the `hl7-parser` package, absent from this repository.  Per the spec's
contract it produces the ordered segments with positionally named field
values, the message type read from header field 9, and the segment count. -/
def parseHL7MessageModel (raw : String) : Except String ParsedMessage :=
  let lines := splitChar '\n' raw.data
  let segs := lines.map (fun l => segOfTokens ((splitChar '|' l).map (fun cs => String.mk cs)))
  let messageType :=
    match segs.find? (fun s => s.segmentType == "MSH") with
    | some msh => msh.fields 9
    | none => ""
  Except.ok { messageType := messageType, totalSegments := segs.length, segments := segs }

/-- Modelled from the spec: the external `validateHL7Message` collaborator,
absent from this repository.  Per the spec's contract it reports whether the
message is minimally well-formed - it starts with the header segment tag and
its field delimiter. -/
def validateHL7MessageModel (raw : String) : Validation :=
  { isValid := "MSH|".data.isPrefixOf raw.data, errors := none }

/-- The sample ADT message returned by `getSampleADTMessage`. -/
def getSampleADTMessage : String :=
  "MSH|^~\\&|SendingApp|SendingFacility|ReceivingApp|ReceivingFacility|20240101120000||ADT^A01^ADT_A01|12345|P|2.5\nEVN|A01|20240101120000|||SendingUserID\nPID|1||MRN123456789^^^HOSPITAL^MR||DOE^JOHN^MIDDLE^JR^^L||19800115|M|||123 MAIN ST^^CITY^ST^12345^USA||555-123-4567|||SSN123456789||DL123456789^STATE^20250101\nNK1|1|SMITH^JANE^M^||WIFE|456 SECOND ST^^CITY^ST^67890^USA|555-987-6543|555-111-2222|||20200101\nPV1|1|I|ICU^101^A|||123456^DOCTOR^JOHN^MD^^MD|||SUR|||||123456789|||V123456||20240101100000|20240101120000\nOBX|1|NM|HR^Heart Rate^LN||72|/min^beats per minute^UCUM|N|||F|||20240101120000"

/-- A parsed message with no segments, used to instantiate pipeline
theorems at a concrete input. -/
def emptyParsed : ParsedMessage :=
  { messageType := "", totalSegments := 0, segments := [] }

/-- Validator stub that accepts every message. -/
def constTrueValidate : String → Validation :=
  fun _ => { isValid := true, errors := none }

/-- Validator stub that rejects every message. -/
def constFalseValidate : String → Validation :=
  fun _ => { isValid := false, errors := none }

/-- Parser stub that returns the empty parsed message. -/
def constOkParse : String → Except String ParsedMessage :=
  fun _ => Except.ok emptyParsed

/-- Parser stub that faults on every message. -/
def constErrParse : String → Except String ParsedMessage :=
  fun _ => Except.error "boom"

/-- An ADT parsed message with no PID segment (witness fixture). -/
def noPidParsed : ParsedMessage :=
  { messageType := "ADT^A01"
    totalSegments := 2
    segments := [segOfTokens ["MSH"], segOfTokens ["PV1", "1"]] }

/-- A PID segment whose date of birth uses the wrong delimiter (witness
fixture). -/
def badDobSeg : Segment :=
  segOfTokens ["PID", "1", "", "MRN1", "", "DOE^JOHN", "", "1980/01/15", "M"]

/-- A parsed message containing `badDobSeg` (witness fixture). -/
def badDobParsed : ParsedMessage :=
  { messageType := "ADT", totalSegments := 1, segments := [badDobSeg] }

/-- A PID segment whose date of birth is well formed (witness fixture). -/
def goodDobSeg : Segment :=
  segOfTokens ["PID", "1", "", "MRN1", "", "DOE^JOHN", "", "19800115", "M"]

/-- A parsed message containing `goodDobSeg` (witness fixture). -/
def goodDobParsed : ParsedMessage :=
  { messageType := "ADT", totalSegments := 1, segments := [goodDobSeg] }

/-- A PV1 segment whose discharge date precedes its admission date (witness
fixture). -/
def pv1BadSeg : Segment :=
  { segmentType := "PV1"
    fields := fun n => if n == 44 then "20240110" else if n == 45 then "20240105" else "" }

/-- A parsed message containing `pv1BadSeg` (witness fixture). -/
def pv1BadParsed : ParsedMessage :=
  { messageType := "ADT", totalSegments := 1, segments := [pv1BadSeg] }

/-- A PV1 segment with the two dates swapped back into order (witness
fixture). -/
def pv1GoodSeg : Segment :=
  { segmentType := "PV1"
    fields := fun n => if n == 44 then "20240105" else if n == 45 then "20240110" else "" }

/-- A parsed message containing `pv1GoodSeg` (witness fixture). -/
def pv1GoodParsed : ParsedMessage :=
  { messageType := "ADT", totalSegments := 1, segments := [pv1GoodSeg] }

/-- The inline match in `aggStep` is the default-empty read of the optional
recommendations array. -/
theorem recs_match_eq_getD (o : Option (List String)) :
    (match o with | some recs => recs | none => ([] : List String)) = o.getD [] := by
  cases o <;> rfl

/-- Closed form of the aggregation loop from an arbitrary accumulator:
issues and recommendations are concatenated in battery order and the
penalties are subtracted from the running score. -/
theorem foldl_aggStep (l : List CheckResult) (is : List Issue) (rs : List String) (sc : Int) :
    l.foldl aggStep (is, rs, sc)
      = (is ++ (l.map CheckResult.issues).flatten,
         rs ++ (l.map (fun c => c.recommendations.getD [])).flatten,
         sc - ((l.map CheckResult.scorePenalty).sum : Int)) := by
  induction l generalizing is rs sc with
  | nil => simp
  | cons c t ih =>
      simp only [List.foldl_cons, aggStep, recs_match_eq_getD, ih, List.map_cons,
        List.flatten, List.sum_cons]
      refine Prod.ext ?_ (Prod.ext ?_ ?_)
      · simp [List.append_assoc]
      · simp [List.append_assoc]
      · by_cases hc : c.scorePenalty = 0
        · simp [hc]
        · simp only [hc, bne_iff_ne, ne_eq, not_false_iff, if_true]
          push_cast
          ring

/-- Closed form of `aggregate` on the whole battery. -/
theorem aggregate_eq (l : List CheckResult) :
    aggregate l
      = ((l.map CheckResult.issues).flatten,
         (l.map (fun c => c.recommendations.getD [])).flatten,
         100 - ((l.map CheckResult.scorePenalty).sum : Int)) := by
  simp [aggregate, foldl_aggStep]

/-- C1: for every input string - and any behaviour of the external
validator and parser - the report's overallScore lies in [0, 100] on all
three result paths (structural-gate failure, parse fault, completed
analysis), however large the summed penalties are. -/
theorem analyzeDataQuality_score_in_range (validateHL7Message : String → Validation)
    (parseHL7Message : String → Except String ParsedMessage) (hl7Message : String) :
    0 ≤ (analyzeDataQuality validateHL7Message parseHL7Message hl7Message).overallScore ∧
    (analyzeDataQuality validateHL7Message parseHL7Message hl7Message).overallScore ≤ 100 := by
  unfold analyzeDataQuality
  cases hv : (validateHL7Message hl7Message).isValid with
  | false => simp [hv, gateFailureReport]
  | true =>
      simp only [hv, if_true]
      cases hp : parseHL7Message hl7Message with
      | error e => simp [parseFailureReport]
      | ok parsed =>
          refine ⟨le_max_left _ _, ?_⟩
          exact max_le (by norm_num) (min_le_left _ _)

/-- C2: on the success path the report is the aggregation of the fixed
battery: overallScore equals clamp(100 - totalPenalty, 0, 100) where
totalPenalty sums the ten checks' penalties, and the issues list is the
concatenation of the ten checks' issue lists in battery order. -/
theorem analyzeDataQuality_success_score_issues (validateHL7Message : String → Validation)
    (parseHL7Message : String → Except String ParsedMessage) (hl7Message : String)
    (parsed : ParsedMessage)
    (hv : (validateHL7Message hl7Message).isValid = true)
    (hp : parseHL7Message hl7Message = Except.ok parsed) :
    (analyzeDataQuality validateHL7Message parseHL7Message hl7Message).overallScore
      = max 0 (min 100 (100 - (totalPenalty parsed : Int))) ∧
    (analyzeDataQuality validateHL7Message parseHL7Message hl7Message).issues
      = (checkMSHCompleteness parsed).issues ++ (checkRequiredSegments parsed).issues ++
        (checkPIDCompleteness parsed).issues ++ (checkDateFormats parsed).issues ++
        (checkIdentifierFormats parsed).issues ++ (checkAddressFormats parsed).issues ++
        (checkPhoneFormats parsed).issues ++ (checkDataConsistency parsed).issues ++
        (checkBusinessRules parsed).issues ++ (checkVersionCompliance parsed).issues := by
  have hrep : analyzeDataQuality validateHL7Message parseHL7Message hl7Message
      = successReport parsed := by
    simp [analyzeDataQuality, hv, hp]
  rw [hrep]
  constructor
  · simp [successReport, aggregate_eq, totalPenalty]
  · simp [successReport, aggregate_eq, runChecks, List.append_assoc]

/-- Witness for C2 at a concrete validator, parser and message. -/
theorem analyzeDataQuality_success_score_issues_witness :
    (constTrueValidate "m").isValid = true ∧
    constOkParse "m" = Except.ok emptyParsed ∧
    ((analyzeDataQuality constTrueValidate constOkParse "m").overallScore
      = max 0 (min 100 (100 - (totalPenalty emptyParsed : Int))) ∧
    (analyzeDataQuality constTrueValidate constOkParse "m").issues
      = (checkMSHCompleteness emptyParsed).issues ++ (checkRequiredSegments emptyParsed).issues ++
        (checkPIDCompleteness emptyParsed).issues ++ (checkDateFormats emptyParsed).issues ++
        (checkIdentifierFormats emptyParsed).issues ++ (checkAddressFormats emptyParsed).issues ++
        (checkPhoneFormats emptyParsed).issues ++ (checkDataConsistency emptyParsed).issues ++
        (checkBusinessRules emptyParsed).issues ++ (checkVersionCompliance emptyParsed).issues) :=
  ⟨rfl, rfl, analyzeDataQuality_success_score_issues constTrueValidate constOkParse "m"
    emptyParsed rfl rfl⟩

/-- C3: a structural-gate failure short-circuits to a report with exactly
one issue - category Formatting, severity Critical, field Message
Structure - empty recommendations, isValid false, and score
max(0, 100 - 30) = 70, independent of the parser. -/
theorem analyzeDataQuality_gate_failure (validateHL7Message : String → Validation)
    (parseHL7Message : String → Except String ParsedMessage) (hl7Message : String)
    (hv : (validateHL7Message hl7Message).isValid = false) :
    analyzeDataQuality validateHL7Message parseHL7Message hl7Message
      = gateFailureReport (validateHL7Message hl7Message) ∧
    (analyzeDataQuality validateHL7Message parseHL7Message hl7Message).issues
      = [gateIssue (validateHL7Message hl7Message)] ∧
    (gateIssue (validateHL7Message hl7Message)).category = "Formatting" ∧
    (gateIssue (validateHL7Message hl7Message)).severity = "Critical" ∧
    (gateIssue (validateHL7Message hl7Message)).field = "Message Structure" ∧
    (analyzeDataQuality validateHL7Message parseHL7Message hl7Message).recommendations = [] ∧
    (analyzeDataQuality validateHL7Message parseHL7Message hl7Message).isValid = false ∧
    (analyzeDataQuality validateHL7Message parseHL7Message hl7Message).overallScore
      = max 0 (100 - 30) ∧
    (analyzeDataQuality validateHL7Message parseHL7Message hl7Message).overallScore = 70 := by
  have hrep : analyzeDataQuality validateHL7Message parseHL7Message hl7Message
      = gateFailureReport (validateHL7Message hl7Message) := by
    simp [analyzeDataQuality, hv]
  rw [hrep]
  refine ⟨rfl, rfl, rfl, rfl, rfl, rfl, rfl, rfl, ?_⟩
  simp [gateFailureReport]

/-- Witness for C3 at a concrete rejecting validator. -/
theorem analyzeDataQuality_gate_failure_witness :
    (constFalseValidate "m").isValid = false ∧
    (analyzeDataQuality constFalseValidate constOkParse "m"
      = gateFailureReport (constFalseValidate "m") ∧
    (analyzeDataQuality constFalseValidate constOkParse "m").issues
      = [gateIssue (constFalseValidate "m")] ∧
    (gateIssue (constFalseValidate "m")).category = "Formatting" ∧
    (gateIssue (constFalseValidate "m")).severity = "Critical" ∧
    (gateIssue (constFalseValidate "m")).field = "Message Structure" ∧
    (analyzeDataQuality constFalseValidate constOkParse "m").recommendations = [] ∧
    (analyzeDataQuality constFalseValidate constOkParse "m").isValid = false ∧
    (analyzeDataQuality constFalseValidate constOkParse "m").overallScore = max 0 (100 - 30) ∧
    (analyzeDataQuality constFalseValidate constOkParse "m").overallScore = 70) :=
  ⟨rfl, analyzeDataQuality_gate_failure constFalseValidate constOkParse "m" rfl⟩

/-- C4: a fault after the structural gate passes yields a report with
exactly one issue - category Formatting, severity Critical, field Message
Parsing - score 0, isValid false, and the single generic top-level
recommendation; no partial check findings appear. -/
theorem analyzeDataQuality_parse_fault (validateHL7Message : String → Validation)
    (parseHL7Message : String → Except String ParsedMessage) (hl7Message : String)
    (e : String)
    (hv : (validateHL7Message hl7Message).isValid = true)
    (hp : parseHL7Message hl7Message = Except.error e) :
    analyzeDataQuality validateHL7Message parseHL7Message hl7Message = parseFailureReport e ∧
    (analyzeDataQuality validateHL7Message parseHL7Message hl7Message).issues
      = [parseFailureIssue e] ∧
    (parseFailureIssue e).category = "Formatting" ∧
    (parseFailureIssue e).severity = "Critical" ∧
    (parseFailureIssue e).field = "Message Parsing" ∧
    (analyzeDataQuality validateHL7Message parseHL7Message hl7Message).overallScore = 0 ∧
    (analyzeDataQuality validateHL7Message parseHL7Message hl7Message).isValid = false ∧
    (analyzeDataQuality validateHL7Message parseHL7Message hl7Message).recommendations
      = ["Fix parsing errors before proceeding with quality analysis"] := by
  have hrep : analyzeDataQuality validateHL7Message parseHL7Message hl7Message
      = parseFailureReport e := by
    simp [analyzeDataQuality, hv, hp]
  rw [hrep]
  exact ⟨rfl, rfl, rfl, rfl, rfl, rfl, rfl, rfl⟩

/-- Witness for C4 at a concrete accepting validator and faulting parser. -/
theorem analyzeDataQuality_parse_fault_witness :
    (constTrueValidate "m").isValid = true ∧
    constErrParse "m" = Except.error "boom" ∧
    (analyzeDataQuality constTrueValidate constErrParse "m" = parseFailureReport "boom" ∧
    (analyzeDataQuality constTrueValidate constErrParse "m").issues
      = [parseFailureIssue "boom"] ∧
    (parseFailureIssue "boom").category = "Formatting" ∧
    (parseFailureIssue "boom").severity = "Critical" ∧
    (parseFailureIssue "boom").field = "Message Parsing" ∧
    (analyzeDataQuality constTrueValidate constErrParse "m").overallScore = 0 ∧
    (analyzeDataQuality constTrueValidate constErrParse "m").isValid = false ∧
    (analyzeDataQuality constTrueValidate constErrParse "m").recommendations
      = ["Fix parsing errors before proceeding with quality analysis"]) :=
  ⟨rfl, rfl, analyzeDataQuality_parse_fault constTrueValidate constErrParse "m" "boom" rfl rfl⟩

/-- Members of the patient-name clause output are the missing-name issue. -/
theorem mem_pidNamePart (pid : Nat → String) (x : Issue) (hx : x ∈ (pidNamePart pid).1) :
    x = pidNameIssue := by
  unfold pidNamePart at hx
  split at hx
  · simpa using hx
  · simp at hx

/-- Members of the patient-identifier clause output are the
missing-identifier issue. -/
theorem mem_pidIdentifierPart (pid : Nat → String) (x : Issue)
    (hx : x ∈ (pidIdentifierPart pid).1) : x = pidIdentifierIssue := by
  unfold pidIdentifierPart at hx
  split at hx
  · simpa using hx
  · simp at hx

/-- Members of the administrative-sex clause output are one of its two
issues. -/
theorem mem_pidSexPart (pid : Nat → String) (x : Issue) (hx : x ∈ (pidSexPart pid).1) :
    x = pidSexMissingIssue ∨ x = pidSexInvalidIssue (pid 8) := by
  unfold pidSexPart at hx
  split at hx
  · left; simpa using hx
  · split at hx
    · simp at hx
    · right; simpa using hx

/-- The date-of-birth format issue differs from the invalid-sex issue at
every field value. -/
theorem dobFormat_ne_sexInvalid (v : String) : pidDobFormatIssue ≠ pidSexInvalidIssue v := by
  intro h
  have h2 : pidDobFormatIssue.issue = (pidSexInvalidIssue v).issue := congrArg Issue.issue h
  rw [show (pidSexInvalidIssue v).issue = "Invalid Administrative Sex value" from rfl] at h2
  exact absurd h2 (by decide)

/-- Members of the birth/death business-rule clause output are the
death-before-birth issue. -/
theorem mem_birthDeathPart (o : Option Segment) (x : Issue)
    (hx : x ∈ (birthDeathPart o).1) : x = deathBeforeBirthIssue := by
  unfold birthDeathPart at hx
  cases o with
  | none => simp at hx
  | some seg =>
      dsimp only at hx
      split at hx
      · split at hx
        · split at hx
          · simpa using hx
          · simp at hx
        · simp at hx
      · simp at hx

/-- C5: an ADT message without a PID segment gets the Critical Missing PID
segment issue with penalty 15 from the required-segments check (plus the
PV1 clause when that segment is also absent), and the PID-completeness
check fires nothing against the absent segment. -/
theorem missing_pid_segment_behaviour (parsed : ParsedMessage)
    (hadt : strIncludes parsed.messageType "ADT" = true)
    (hnopid : "PID" ∉ parsed.segments.map (fun s => s.segmentType)) :
    pidMissingSegIssue ∈ (checkRequiredSegments parsed).issues ∧
    (checkRequiredSegments parsed).scorePenalty
      = 15 + (if (parsed.segments.map (fun s => s.segmentType)).contains "PV1" then 0 else 10) ∧
    pidMissingSegIssue.severity = "Critical" ∧
    (checkPIDCompleteness parsed).issues = [] ∧
    (checkPIDCompleteness parsed).scorePenalty = 0 := by
  have hnex : ¬ ∃ a ∈ parsed.segments, a.segmentType = "PID" := by
    rintro ⟨a, ha, heq⟩
    exact hnopid (heq ▸ List.mem_map_of_mem (fun s => s.segmentType) ha)
  have hfind : parsed.segments.find? (fun s => s.segmentType == "PID") = none := by
    rw [List.find?_eq_none]
    intro s hs
    simp only [beq_iff_eq]
    exact fun heq => hnex ⟨s, hs, heq⟩
  refine ⟨?_, ?_, rfl, ?_, ?_⟩
  · simp [checkRequiredSegments, hadt, hnex]
  · simp [checkRequiredSegments, hadt, hnex, apply_ite Prod.snd]
  · simp [checkPIDCompleteness, hfind]
  · simp [checkPIDCompleteness, hfind]

/-- Witness for C5 at a concrete ADT message lacking a PID segment. -/
theorem missing_pid_segment_behaviour_witness :
    strIncludes noPidParsed.messageType "ADT" = true ∧
    "PID" ∉ noPidParsed.segments.map (fun s => s.segmentType) ∧
    (pidMissingSegIssue ∈ (checkRequiredSegments noPidParsed).issues ∧
    (checkRequiredSegments noPidParsed).scorePenalty
      = 15 + (if (noPidParsed.segments.map (fun s => s.segmentType)).contains "PV1" then 0 else 10) ∧
    pidMissingSegIssue.severity = "Critical" ∧
    (checkPIDCompleteness noPidParsed).issues = [] ∧
    (checkPIDCompleteness noPidParsed).scorePenalty = 0) :=
  ⟨by decide, by decide, missing_pid_segment_behaviour noPidParsed (by decide) (by decide)⟩

/-- C6: on the documented sample ADT message, analysed with the modelled
external validator and parser, the engine reports a perfect score and no
issues. -/
theorem sample_adt_message_perfect_score :
    (analyzeDataQuality validateHL7MessageModel parseHL7MessageModel getSampleADTMessage).overallScore
      = 100 ∧
    (analyzeDataQuality validateHL7MessageModel parseHL7MessageModel getSampleADTMessage).issues
      = [] := by
  exact ⟨by decide, by decide⟩

/-- C7: a birth date of 1980/01/15 makes the PID-completeness check emit
the Medium Formatting issue for PID-7, while 19800115 does not. -/
theorem dob_format_flagging (p q : ParsedMessage) (s t : Segment)
    (hp : p.segments.find? (fun seg => seg.segmentType == "PID") = some s)
    (hs : s.fields 7 = "1980/01/15")
    (hq : q.segments.find? (fun seg => seg.segmentType == "PID") = some t)
    (ht : t.fields 7 = "19800115") :
    pidDobFormatIssue ∈ (checkPIDCompleteness p).issues ∧
    pidDobFormatIssue.category = "Formatting" ∧
    pidDobFormatIssue.severity = "Medium" ∧
    pidDobFormatIssue.field = "PID-7" ∧
    pidDobFormatIssue ∉ (checkPIDCompleteness q).issues := by
  refine ⟨?_, rfl, rfl, rfl, ?_⟩
  · have hdob : pidDobPart s.fields = ([pidDobFormatIssue], 2) := by
      unfold pidDobPart
      rw [hs]
      decide
    unfold checkPIDCompleteness
    rw [hp]
    simp [hdob]
  · have hdob : pidDobPart t.fields = ([], 0) := by
      unfold pidDobPart
      rw [ht]
      decide
    unfold checkPIDCompleteness
    rw [hq]
    intro hmem
    simp only [hdob, List.append_nil, List.mem_append] at hmem
    rcases hmem with (hmem | hmem) | hmem
    · exact absurd (mem_pidNamePart t.fields _ hmem) (by decide)
    · exact absurd (mem_pidIdentifierPart t.fields _ hmem) (by decide)
    · rcases mem_pidSexPart t.fields _ hmem with h | h
      · exact absurd h (by decide)
      · exact dobFormat_ne_sexInvalid (t.fields 8) h

/-- Witness for C7 at concrete parsed messages with the two birth-date
values. -/
theorem dob_format_flagging_witness :
    badDobParsed.segments.find? (fun seg => seg.segmentType == "PID") = some badDobSeg ∧
    badDobSeg.fields 7 = "1980/01/15" ∧
    goodDobParsed.segments.find? (fun seg => seg.segmentType == "PID") = some goodDobSeg ∧
    goodDobSeg.fields 7 = "19800115" ∧
    (pidDobFormatIssue ∈ (checkPIDCompleteness badDobParsed).issues ∧
    pidDobFormatIssue.category = "Formatting" ∧
    pidDobFormatIssue.severity = "Medium" ∧
    pidDobFormatIssue.field = "PID-7" ∧
    pidDobFormatIssue ∉ (checkPIDCompleteness goodDobParsed).issues) :=
  ⟨rfl, rfl, rfl, rfl,
    dob_format_flagging badDobParsed goodDobParsed badDobSeg goodDobSeg rfl rfl rfl rfl⟩

/-- C8: a visit segment with admission date 20240110 and discharge 20240105
fires the High discharge-before-admission issue with penalty 5; with the values
swapped the clause fires nothing (comparison is on the first eight digits
as a calendar date). -/
theorem discharge_before_admission_flagging (p q : ParsedMessage) (s t : Segment)
    (hp : p.segments.find? (fun seg => seg.segmentType == "PV1") = some s)
    (ha : s.fields 44 = "20240110") (hd : s.fields 45 = "20240105")
    (hq : q.segments.find? (fun seg => seg.segmentType == "PV1") = some t)
    (ha2 : t.fields 44 = "20240105") (hd2 : t.fields 45 = "20240110") :
    admissionDischargePart (some s) = ([dischargeBeforeAdmissionIssue], 5) ∧
    dischargeBeforeAdmissionIssue ∈ (checkBusinessRules p).issues ∧
    dischargeBeforeAdmissionIssue.severity = "High" ∧
    admissionDischargePart (some t) = ([], 0) ∧
    dischargeBeforeAdmissionIssue ∉ (checkBusinessRules q).issues := by
  have h1 : admissionDischargePart (some s) = ([dischargeBeforeAdmissionIssue], 5) := by
    simp only [admissionDischargePart]
    rw [ha, hd]
    decide
  have h2 : admissionDischargePart (some t) = ([], 0) := by
    simp only [admissionDischargePart]
    rw [ha2, hd2]
    decide
  refine ⟨h1, ?_, rfl, h2, ?_⟩
  · unfold checkBusinessRules
    rw [hp, h1]
    simp
  · unfold checkBusinessRules
    rw [hq, h2]
    intro hmem
    simp only [List.nil_append, List.mem_append] at hmem
    exact absurd (mem_birthDeathPart _ _ hmem) (by decide)

/-- Witness for C8 at concrete parsed messages with the two date orders. -/
theorem discharge_before_admission_flagging_witness :
    pv1BadParsed.segments.find? (fun seg => seg.segmentType == "PV1") = some pv1BadSeg ∧
    pv1BadSeg.fields 44 = "20240110" ∧
    pv1BadSeg.fields 45 = "20240105" ∧
    pv1GoodParsed.segments.find? (fun seg => seg.segmentType == "PV1") = some pv1GoodSeg ∧
    pv1GoodSeg.fields 44 = "20240105" ∧
    pv1GoodSeg.fields 45 = "20240110" ∧
    (admissionDischargePart (some pv1BadSeg) = ([dischargeBeforeAdmissionIssue], 5) ∧
    dischargeBeforeAdmissionIssue ∈ (checkBusinessRules pv1BadParsed).issues ∧
    dischargeBeforeAdmissionIssue.severity = "High" ∧
    admissionDischargePart (some pv1GoodSeg) = ([], 0) ∧
    dischargeBeforeAdmissionIssue ∉ (checkBusinessRules pv1GoodParsed).issues) :=
  ⟨rfl, rfl, rfl, rfl, rfl, rfl,
    discharge_before_admission_flagging pv1BadParsed pv1GoodParsed pv1BadSeg pv1GoodSeg
      rfl rfl rfl rfl rfl rfl⟩

/-- The MSH check never populates its recommendations array. -/
theorem checkMSH_recs (parsed : ParsedMessage) :
    (checkMSHCompleteness parsed).recommendations.getD [] = [] := by
  unfold checkMSHCompleteness
  cases parsed.segments.find? (fun s => s.segmentType == "MSH") <;> rfl

/-- The required-segments check returns no recommendations array. -/
theorem checkRequiredSegments_recs (parsed : ParsedMessage) :
    (checkRequiredSegments parsed).recommendations.getD [] = [] := by
  unfold checkRequiredSegments
  dsimp only
  split <;> rfl

/-- The PID check never populates its recommendations array. -/
theorem checkPID_recs (parsed : ParsedMessage) :
    (checkPIDCompleteness parsed).recommendations.getD [] = [] := by
  unfold checkPIDCompleteness
  cases parsed.segments.find? (fun s => s.segmentType == "PID") <;> rfl

/-- The date-format sweep returns no recommendations array. -/
theorem checkDateFormats_recs (parsed : ParsedMessage) :
    (checkDateFormats parsed).recommendations.getD [] = [] := rfl

/-- The identifier check returns no recommendations array. -/
theorem checkIdentifierFormats_recs (parsed : ParsedMessage) :
    (checkIdentifierFormats parsed).recommendations.getD [] = [] := by
  unfold checkIdentifierFormats
  split
  · rfl
  · dsimp only
    split <;> rfl

/-- The address check returns no recommendations array. -/
theorem checkAddressFormats_recs (parsed : ParsedMessage) :
    (checkAddressFormats parsed).recommendations.getD [] = [] := by
  unfold checkAddressFormats
  split
  · rfl
  · dsimp only
    split <;> rfl

/-- The phone check returns no recommendations array. -/
theorem checkPhoneFormats_recs (parsed : ParsedMessage) :
    (checkPhoneFormats parsed).recommendations.getD [] = [] := by
  unfold checkPhoneFormats
  cases parsed.segments.find? (fun s => s.segmentType == "PID") <;> rfl

/-- The consistency check returns no recommendations array. -/
theorem checkDataConsistency_recs (parsed : ParsedMessage) :
    (checkDataConsistency parsed).recommendations.getD [] = [] := by
  unfold checkDataConsistency
  split
  · dsimp only
    split <;> rfl
  · rfl

/-- The business-rules check returns no recommendations array. -/
theorem checkBusinessRules_recs (parsed : ParsedMessage) :
    (checkBusinessRules parsed).recommendations.getD [] = [] := rfl

/-- The version check returns no recommendations array. -/
theorem checkVersionCompliance_recs (parsed : ParsedMessage) :
    (checkVersionCompliance parsed).recommendations.getD [] = [] := by
  unfold checkVersionCompliance
  split
  · rfl
  · dsimp only
    split <;> rfl

/-- Every check of the battery contributes an empty recommendations array
to the aggregator. -/
theorem runChecks_recommendations (parsed : ParsedMessage) :
    ∀ c ∈ runChecks parsed, c.recommendations.getD [] = [] := by
  intro c hc
  simp only [runChecks, List.mem_cons, List.not_mem_nil, or_false] at hc
  rcases hc with rfl | rfl | rfl | rfl | rfl | rfl | rfl | rfl | rfl | rfl
  · exact checkMSH_recs parsed
  · exact checkRequiredSegments_recs parsed
  · exact checkPID_recs parsed
  · exact checkDateFormats_recs parsed
  · exact checkIdentifierFormats_recs parsed
  · exact checkAddressFormats_recs parsed
  · exact checkPhoneFormats_recs parsed
  · exact checkDataConsistency_recs parsed
  · exact checkBusinessRules_recs parsed
  · exact checkVersionCompliance_recs parsed

/-- C9: on the success path the top-level recommendations list is empty -
no check ever appends to its recommendations array, and per-issue
recommendation strings are never copied into the top-level list. -/
theorem success_recommendations_empty (validateHL7Message : String → Validation)
    (parseHL7Message : String → Except String ParsedMessage) (hl7Message : String)
    (parsed : ParsedMessage)
    (hv : (validateHL7Message hl7Message).isValid = true)
    (hp : parseHL7Message hl7Message = Except.ok parsed) :
    (analyzeDataQuality validateHL7Message parseHL7Message hl7Message).recommendations = [] ∧
    ∀ c ∈ runChecks parsed, c.recommendations.getD [] = [] := by
  refine ⟨?_, runChecks_recommendations parsed⟩
  have hrep : analyzeDataQuality validateHL7Message parseHL7Message hl7Message
      = successReport parsed := by
    simp [analyzeDataQuality, hv, hp]
  rw [hrep]
  have hflat : ((runChecks parsed).map (fun c => c.recommendations.getD [])).flatten = [] := by
    rw [List.flatten_eq_nil_iff]
    intro l hl
    rcases List.mem_map.mp hl with ⟨c, hc, rfl⟩
    exact runChecks_recommendations parsed c hc
  simp only [successReport, aggregate_eq]
  rw [hflat]
  rfl

/-- Witness for C9 at a concrete validator, parser and message. -/
theorem success_recommendations_empty_witness :
    (constTrueValidate "m").isValid = true ∧
    constOkParse "m" = Except.ok emptyParsed ∧
    ((analyzeDataQuality constTrueValidate constOkParse "m").recommendations = [] ∧
    ∀ c ∈ runChecks emptyParsed, c.recommendations.getD [] = []) :=
  ⟨rfl, rfl, success_recommendations_empty constTrueValidate constOkParse "m" emptyParsed rfl rfl⟩

/-- The two PID-7 issues differ (distinct recommendation texts). -/
theorem dobFormat_ne_dateSweep (v : String) :
    pidDobFormatIssue ≠ dateFormatIssue "PID" 7 "Date of Birth" v := by
  intro h
  have h2 : pidDobFormatIssue.recommendation
      = (dateFormatIssue "PID" 7 "Date of Birth" v).recommendation :=
    congrArg Issue.recommendation h
  rw [show (dateFormatIssue "PID" 7 "Date of Birth" v).recommendation
      = "Format dates as YYYYMMDD or YYYYMMDDHHMMSS" from rfl] at h2
  exact absurd h2 (by decide)

/-- The sweep issue for header-style field 7 of the patient segment is
located at PID-7. -/
theorem dateFormatIssue_field_PID7 (name v : String) :
    (dateFormatIssue "PID" 7 name v).field = "PID-7" := rfl

/-- C10: a present but malformed birth date is flagged twice - once by the
PID-completeness check (penalty 2) and once by the date-format sweep
(penalty 1 per hit) - as two distinct Medium Formatting issues on PID-7,
so the same value costs 3 points. -/
theorem malformed_dob_double_penalty (p : ParsedMessage) (s : Segment)
    (hp : p.segments.find? (fun seg => seg.segmentType == "PID") = some s)
    (hne : s.fields 7 ≠ "")
    (hbad : hl7DateTest (s.fields 7) = false) :
    pidDobPart s.fields = ([pidDobFormatIssue], 2) ∧
    pidDobFormatIssue ∈ (checkPIDCompleteness p).issues ∧
    dateFormatIssue "PID" 7 "Date of Birth" (s.fields 7) ∈ (checkDateFormats p).issues ∧
    pidDobFormatIssue ≠ dateFormatIssue "PID" 7 "Date of Birth" (s.fields 7) ∧
    pidDobFormatIssue.field = "PID-7" ∧
    (dateFormatIssue "PID" 7 "Date of Birth" (s.fields 7)).field = "PID-7" ∧
    pidDobFormatIssue.severity = "Medium" ∧
    pidDobFormatIssue.category = "Formatting" ∧
    (dateFormatIssue "PID" 7 "Date of Birth" (s.fields 7)).severity = "Medium" ∧
    (dateFormatIssue "PID" 7 "Date of Birth" (s.fields 7)).category = "Formatting" ∧
    (checkDateFormats p).scorePenalty = (checkDateFormats p).issues.length := by
  have hneb : (s.fields 7 == "") = false := beq_eq_false_iff_ne.mpr hne
  have hdob : pidDobPart s.fields = ([pidDobFormatIssue], 2) := by
    simp [pidDobPart, hneb, hbad]
  refine ⟨hdob, ?_, ?_, dobFormat_ne_dateSweep (s.fields 7), rfl,
    dateFormatIssue_field_PID7 "Date of Birth" (s.fields 7), rfl, rfl, rfl, rfl, rfl⟩
  · unfold checkPIDCompleteness
    rw [hp]
    simp [hdob]
  · have hissue : dateFieldIssue ("PID", 7, "Date of Birth") p
        = some (dateFormatIssue "PID" 7 "Date of Birth" (s.fields 7)) := by
      unfold dateFieldIssue
      dsimp only
      rw [hp]
      simp [hne, hneb, hbad]
    show dateFormatIssue "PID" 7 "Date of Birth" (s.fields 7)
      ∈ dateFieldTable.filterMap (fun e => dateFieldIssue e p)
    exact List.mem_filterMap.mpr ⟨("PID", 7, "Date of Birth"), by decide, hissue⟩

/-- Witness for C10 at a concrete parsed message with a malformed birth
date. -/
theorem malformed_dob_double_penalty_witness :
    badDobParsed.segments.find? (fun seg => seg.segmentType == "PID") = some badDobSeg ∧
    badDobSeg.fields 7 ≠ "" ∧
    hl7DateTest (badDobSeg.fields 7) = false ∧
    (pidDobPart badDobSeg.fields = ([pidDobFormatIssue], 2) ∧
    pidDobFormatIssue ∈ (checkPIDCompleteness badDobParsed).issues ∧
    dateFormatIssue "PID" 7 "Date of Birth" (badDobSeg.fields 7)
      ∈ (checkDateFormats badDobParsed).issues ∧
    pidDobFormatIssue ≠ dateFormatIssue "PID" 7 "Date of Birth" (badDobSeg.fields 7) ∧
    pidDobFormatIssue.field = "PID-7" ∧
    (dateFormatIssue "PID" 7 "Date of Birth" (badDobSeg.fields 7)).field = "PID-7" ∧
    pidDobFormatIssue.severity = "Medium" ∧
    pidDobFormatIssue.category = "Formatting" ∧
    (dateFormatIssue "PID" 7 "Date of Birth" (badDobSeg.fields 7)).severity = "Medium" ∧
    (dateFormatIssue "PID" 7 "Date of Birth" (badDobSeg.fields 7)).category = "Formatting" ∧
    (checkDateFormats badDobParsed).scorePenalty = (checkDateFormats badDobParsed).issues.length) :=
  ⟨rfl, by decide, by decide,
    malformed_dob_double_penalty badDobParsed badDobSeg rfl (by decide) (by decide)⟩

end HL7DQ
